import Mathlib

/-!
Verification of the versioned-exploration engine and the statistics models
of the Oppia repository, against its natural-language specification.

The statistics storage layer (`core/storage/statistics/gae_models.py`) is
present in the source tree and is embedded directly.  The exploration
services module (`core/domain/exp_services.py`) is not present — only its
test suite is — so the engine operations are modelled from the
specification (see the doc comments beginning with `Modelled from the
spec:`), with string constants taken from the test suite where the spec
gives only examples.
-/

set_option autoImplicit false

namespace Oppia

/-! ## Statistics models (`core/storage/statistics/gae_models.py`) -/

/-- Embeds `StateCounterModel.get_or_create`: the instance id is
`'.'.join([exploration_id, state_name])`, i.e. the two parts joined by a
single dot.  The entity returned always carries this id, whether it was
freshly created or fetched from the datastore under that key. -/
def state_counter_instance_id (exploration_id state_name : String) : String :=
  exploration_id ++ "." ++ state_name

/-- Splits a list of characters at the first occurrence of a dot,
returning the parts before and after it, or `none` when no dot occurs.
This is the semantics of Python `id.find('.')` followed by
`id[:loc], id[loc + 1:]` for `loc ≥ 0`. -/
def splitAtFirstDot : List Char → Option (List Char × List Char)
  | [] => none
  | c :: rest =>
    if c = '.' then some ([], rest)
    else
      match splitAtFirstDot rest with
      | some (a, b) => some (c :: a, b)
      | none => none

/-- Embeds `StateCounterModel.get_exploration_id_and_state_name`:
`first_dot_loc = self.id.find('.')`, returning
`(self.id[:first_dot_loc], self.id[first_dot_loc + 1:])`.  When the id
contains no dot, Python `find` returns `-1`, so the slices degenerate to
`(id[:-1], id[0:])` — everything but the last character, and the whole id. -/
def get_exploration_id_and_state_name (id : String) : String × String :=
  match splitAtFirstDot id.toList with
  | some (a, b) => (String.mk a, String.mk b)
  | none => (String.mk id.toList.dropLast, id)

/-- An answer log, as stored in `StateRuleAnswerLogModel.answers`: a map
from answer strings to integer counts, embedded as an association list. -/
abbrev AnswerLog := List (String × Nat)

/-- Looks up the count recorded for an answer, `0` when absent
(mirroring `answer in answer_log.answers` being false). -/
def answer_count (log : AnswerLog) (answer : String) : Nat :=
  match log with
  | [] => 0
  | (a, n) :: rest => if a = answer then n else answer_count rest answer

/-- Embeds the in-memory update of `process_submitted_answer`:
`answers[answer] += 1` when present, `answers[answer] = 1` otherwise. -/
def bump_answer (log : AnswerLog) (answer : String) : AnswerLog :=
  match log with
  | [] => [(answer, 1)]
  | (a, n) :: rest =>
    if a = answer then (a, n + 1) :: rest
    else (a, n) :: bump_answer rest answer

/-- The statistics datastore restricted to `StateRuleAnswerLogModel`
entities: a map from entity id to the stored answer log. -/
abbrev StatsStore := List (String × AnswerLog)

/-- Embeds `StateRuleAnswerLogModel.get_or_create`: fetches the log stored
under the rule key, or a fresh empty log (`answers={}`) when absent. -/
def get_or_create_answer_log (store : StatsStore) (key : String) : AnswerLog :=
  match store with
  | [] => []
  | (k, log) :: rest =>
    if k = key then log else get_or_create_answer_log rest key

/-- Stores an answer log under a key, replacing any previous log. -/
def put_answer_log (store : StatsStore) (key : String) (log : AnswerLog) :
    StatsStore :=
  match store with
  | [] => [(key, log)]
  | (k, l) :: rest =>
    if k = key then (key, log) :: rest
    else (k, l) :: put_answer_log rest key log

/-- The entity key used by `StateRuleAnswerLogModel.get_or_create_multi`:
`'.'.join([exploration_id, state_name, handler_name, rule_str])`
(truncation to 490 characters left unmodelled; it does not affect the
claims). -/
def answer_log_key
    (exploration_id state_name handler_name rule_str : String) : String :=
  exploration_id ++ "." ++ state_name ++ "." ++ handler_name ++ "." ++ rule_str

/-- Embeds `process_submitted_answer`: loads (or creates) the answer log
for the rule, increments the submitted answer count in memory, then
attempts `answer_log.put()`.  The `put` may raise (for example when the
log exceeds 1 MB); the source wraps it in a bare
`try/except Exception: logging.error(e)` so the failure is logged and
swallowed.  The possibility of failure is embedded as a predicate
`put_fails` on the log being stored; on failure the store is left
unchanged and the function still returns normally. -/
def process_submitted_answer (put_fails : AnswerLog → Bool)
    (store : StatsStore)
    (exploration_id state_name handler_name rule_str answer : String) :
    StatsStore :=
  let key := answer_log_key exploration_id state_name handler_name rule_str
  let log := get_or_create_answer_log store key
  let updated := bump_answer log answer
  if put_fails updated then store
  else put_answer_log store key updated

/-! ## Exploration engine data model

`core/domain/exp_services.py` is absent from the source tree; the
structures and operations below are modelled from the specification
(sections 3 and 4), with concrete strings taken from the test suite
`core/domain/exp_services_test.py` where the spec gives only examples. -/

/-- Whether a rule is the default (fallback) rule of a handler or an
atomic (condition-matching) rule. -/
inductive RuleType
  | atomic
  | defaultRule
deriving DecidableEq, Repr

/-- Modelled from the spec: one outgoing rule of a state, carrying its
rule type and the destination state name. -/
structure RuleSpec where
  rule_type : RuleType
  dest : String
deriving DecidableEq, Repr

/-- Modelled from the spec: a single state of the document — content,
interaction configuration (id, rule handlers, sticky flag). -/
structure ExpState where
  content : String
  interaction_id : String
  handlers : List (List RuleSpec)
  sticky : Bool
deriving DecidableEq, Repr

/-- Modelled from the spec: the content of a document (exploration) —
title, category, objective, the named-state map and the initial state
name.  The integer version is kept separately in the store. -/
structure ExpContent where
  title : String
  category : String
  objective : String
  init_state_name : String
  states : List (String × ExpState)
deriving DecidableEq, Repr

/-- An in-memory document as handed to callers: its content together
with the version it was loaded at. -/
structure Exploration where
  content : ExpContent
  version : Nat
deriving DecidableEq, Repr

/-- Commit types, per the spec: `create` only for version 1, `revert`
only via the revision service, `delete` only via the delete path, else
`edit`. -/
inductive CommitType
  | create
  | edit
  | revert
  | delete
deriving DecidableEq, Repr

/-- The spec's error taxonomy for commits: `NotFoundError`,
`ValidationError`, `StaleVersionError` (naming both versions) and
`CommitMessageRequiredError`. -/
inductive CommitError
  | not_found (msg : String)
  | validation_error (msg : String)
  | stale_version (supplied current : Nat)
  | commit_message_required
deriving DecidableEq, Repr

/-- Renders an error the way callers see it.  The stale-version text
follows the test suite (`'version 1, which is too old'`) and the spec
requirement that both versions be named. -/
def error_message : CommitError → String
  | CommitError.not_found m => m
  | CommitError.validation_error m => m
  | CommitError.stale_version supplied current =>
      "version " ++ toString supplied ++ ", which is too old" ++
      ". The current version of the exploration is " ++
      toString current ++ "."
  | CommitError.commit_message_required =>
      "Exploration is public so expected a commit message but received none."

/-- Modelled from the spec: the structured change commands recognized by
the ChangeList Engine (section 4.1). -/
inductive StateProp
  | contentProp (v : String)
  | interactionIdProp (v : String)
  | handlersProp (v : List (List RuleSpec))
  | stickyProp (v : Bool)
deriving DecidableEq, Repr

/-- Modelled from the spec: a tagged change command — one variant per
command kind (`edit_exploration_property`, `edit_state_property`,
`add_state`, `rename_state`, `delete_state`, plus the `create_new` and
`revert` metadata sentinels). -/
inductive ChangeCmd
  | edit_exploration_property (property_name new_value : String)
  | edit_state_property (state_name : String) (prop : StateProp)
  | add_state (state_name : String)
  | rename_state (old_state_name new_state_name : String)
  | delete_state (state_name : String)
  | create_new (title category : String)
  | revert_cmd (version_number : Nat)
deriving DecidableEq, Repr

/-- Modelled from the spec: one immutable snapshot per committed
version — the version number, a copy of the content at that version,
and commit metadata. -/
structure Snapshot where
  version_number : Nat
  content : ExpContent
  committer_id : String
  commit_cmds : List ChangeCmd
  commit_message : String
  commit_type : CommitType
deriving DecidableEq, Repr

/-- Modelled from the spec: one commit log entry per successful commit —
document id, resulting version (or `none` for rights-only events such as
publication that do not bump the version), committer, commit type,
message, and a snapshot of access-state flags at commit time. -/
structure CommitLogEntry where
  exploration_id : String
  version : Option Nat
  committer_id : String
  commit_type : CommitType
  commit_message : String
  post_commit_is_private : Bool
deriving DecidableEq, Repr

/-- The access status of a document, sourced from the authorization
collaborator: private, public, or publicized. -/
inductive ExpStatus
  | private_
  | public_
  | publicized_
deriving DecidableEq, Repr

/-- Modelled from the spec: the derived summary record — a subset of the
document (title, category, version) plus access-state fields. -/
structure ExpSummary where
  title : String
  category : String
  version : Nat
  status : ExpStatus
  owner_ids : List String
deriving DecidableEq, Repr

/-- Modelled from the spec: the persisted backing records of one
document id — the document model (absent once hard-deleted, flagged when
soft-deleted), the current version, the append-only snapshot list, the
commit log (newest first), the derived summary, the access status and
owner list from the authorization collaborator, and the per-rater rating
map used by the summary projector. -/
structure ExpStore where
  exploration_id : String
  model : Option ExpContent
  model_deleted : Bool
  version : Nat
  snapshots : List Snapshot
  commit_log : List CommitLogEntry
  summary : Option ExpSummary
  status : ExpStatus
  owner_ids : List String
  ratings : List (String × Nat)
deriving DecidableEq, Repr

/-! ## Exploration engine operations (modelled from the spec) -/

/-- The destination marker for a terminal transition. -/
def terminal_dest : String := "END"

/-- Looks up a state by name in the state map. -/
def lookup_state (states : List (String × ExpState)) (n : String) :
    Option ExpState :=
  match states with
  | [] => none
  | (k, s) :: rest => if k = n then some s else lookup_state rest n

/-- Replaces the state stored under a name (no-op when absent). -/
def set_state (states : List (String × ExpState)) (n : String)
    (s : ExpState) : List (String × ExpState) :=
  states.map fun p => if p.1 = n then (n, s) else p

/-- Modelled from the spec: a rule handler list is structurally valid
when it ends in exactly one default rule and contains no other default
rules. -/
def valid_ruleset (rules : List RuleSpec) : Bool :=
  (match rules.getLast? with
   | some r => r.rule_type = RuleType.defaultRule
   | none => false) &&
  rules.dropLast.all fun r => !(r.rule_type = RuleType.defaultRule)

/-- Whether a handler list contains a default rule in a position other
than the last — the malformation rejected by the engine. -/
def has_misplaced_default (hs : List (List RuleSpec)) : Bool :=
  hs.any fun rules =>
    rules.dropLast.any fun r => r.rule_type = RuleType.defaultRule

/-- Whether every rule destination in the handler list names an existing
state or the terminal marker. -/
def dests_exist (names : List String) (hs : List (List RuleSpec)) : Bool :=
  hs.all fun rules =>
    rules.all fun r => names.contains r.dest || r.dest = terminal_dest

/-- Whether any state other than `n` still references `n` as a rule
destination. -/
def referenced_by_other (states : List (String × ExpState)) (n : String) :
    Bool :=
  states.any fun p =>
    !(p.1 = n) &&
    p.2.handlers.any fun rules => rules.any fun r => r.dest = n

/-- Modelled from the spec: full structural validation of a document —
state names unique and non-empty, the initial state exists, every rule
destination references an existing state or the terminal marker, and
every handler list is structurally valid. -/
def validate (c : ExpContent) : Bool :=
  let names := c.states.map Prod.fst
  (names.all fun n => !(n = "")) &&
  decide names.Nodup &&
  names.contains c.init_state_name &&
  c.states.all fun p =>
    p.2.handlers.all fun rules =>
      valid_ruleset rules &&
      rules.all fun r => names.contains r.dest || r.dest = terminal_dest

/-- Renames a state within rule destinations of a single state. -/
def rename_in_state (s : ExpState) (old_name new_name : String) : ExpState :=
  { s with
    handlers := s.handlers.map fun rules =>
      rules.map fun r =>
        if r.dest = old_name then { r with dest := new_name } else r }

/-- The default configuration of a freshly added state: empty content, a
single handler whose default rule points back at the state itself. -/
def default_new_state (n : String) : ExpState :=
  { content := ""
    interaction_id := ""
    handlers := [[{ rule_type := RuleType.defaultRule, dest := n }]]
    sticky := false }

/-- Modelled from the spec (section 4.1): applies one change command to
the working copy.  `edit_exploration_property` sets a named top-level
property, failing on unrecognized names; `edit_state_property` requires
the state to exist and runs property-specific structural validation
immediately (handler lists must end in exactly one default rule with no
other default rules, and destinations must exist); `add_state`,
`rename_state` and `delete_state` are structural edits (renaming updates
all internal destinations; deleting a missing or still-referenced state
fails); `create_new` and `revert` are metadata-only sentinels. -/
def applyCmd (c : ExpContent) : ChangeCmd → Except CommitError ExpContent
  | ChangeCmd.edit_exploration_property name v =>
    if name = "title" then Except.ok { c with title := v }
    else if name = "category" then Except.ok { c with category := v }
    else if name = "objective" then Except.ok { c with objective := v }
    else Except.error (CommitError.validation_error
      ("Invalid change dict: unrecognized property name " ++ name))
  | ChangeCmd.edit_state_property n prop =>
    match lookup_state c.states n with
    | none => Except.error (CommitError.validation_error
        ("State " ++ n ++ " does not exist"))
    | some s =>
      match prop with
      | StateProp.contentProp v =>
        Except.ok { c with states := set_state c.states n { s with content := v } }
      | StateProp.interactionIdProp v =>
        Except.ok { c with
          states := set_state c.states n { s with interaction_id := v } }
      | StateProp.stickyProp v =>
        Except.ok { c with states := set_state c.states n { s with sticky := v } }
      | StateProp.handlersProp hs =>
        if !(hs.all valid_ruleset) then
          Except.error (CommitError.validation_error
            ("Invalid ruleset: rules other than the last one should not" ++
             " be default rules, and the last rule should be a default rule."))
        else if !(dests_exist (c.states.map Prod.fst) hs) then
          Except.error (CommitError.validation_error
            "Invalid ruleset: a rule destination does not exist.")
        else
          Except.ok { c with states := set_state c.states n { s with handlers := hs } }
  | ChangeCmd.add_state n =>
    if n = "" then
      Except.error (CommitError.validation_error "State name must be non-empty.")
    else if (c.states.map Prod.fst).contains n then
      Except.error (CommitError.validation_error
        ("State " ++ n ++ " already exists"))
    else
      Except.ok { c with states := c.states ++ [(n, default_new_state n)] }
  | ChangeCmd.rename_state old_name new_name =>
    match lookup_state c.states old_name with
    | none => Except.error (CommitError.validation_error
        ("State " ++ old_name ++ " does not exist"))
    | some _ =>
      if new_name = "" then
        Except.error (CommitError.validation_error "State name must be non-empty.")
      else if (c.states.map Prod.fst).contains new_name then
        Except.error (CommitError.validation_error
          ("State " ++ new_name ++ " already exists"))
      else
        Except.ok { c with
          init_state_name :=
            if c.init_state_name = old_name then new_name else c.init_state_name
          states := c.states.map fun p =>
            if p.1 = old_name then (new_name, rename_in_state p.2 old_name new_name)
            else (p.1, rename_in_state p.2 old_name new_name) }
  | ChangeCmd.delete_state n =>
    match lookup_state c.states n with
    | none => Except.error (CommitError.validation_error
        ("State " ++ n ++ " does not exist"))
    | some _ =>
      if referenced_by_other c.states n then
        Except.error (CommitError.validation_error
          ("State " ++ n ++ " is still referenced as a rule destination"))
      else
        Except.ok { c with states := c.states.filter fun p => !(p.1 = n) }
  | ChangeCmd.create_new _ _ => Except.ok c
  | ChangeCmd.revert_cmd _ => Except.ok c

/-- Modelled from the spec: commands are applied strictly in order and
any failure aborts the whole change list, leaving no partial mutation
visible (the engine operates on a private working copy). -/
def applyChangeList (c : ExpContent) :
    List ChangeCmd → Except CommitError ExpContent
  | [] => Except.ok c
  | cmd :: rest =>
    match applyCmd c cmd with
    | Except.error e => Except.error e
    | Except.ok next => applyChangeList next rest

/-- Modelled from the spec: `get_exploration_by_id` — loads the current
document and version; fails with `NotFoundError` on an unknown (or
deleted) id. -/
def get_exploration_by_id (st : ExpStore) : Except CommitError Exploration :=
  match st.model with
  | none => Except.error (CommitError.not_found
      ("Entity for exploration " ++ st.exploration_id ++ " not found"))
  | some c =>
    if st.model_deleted then
      Except.error (CommitError.not_found
        ("Entity for exploration " ++ st.exploration_id ++ " not found"))
    else Except.ok { content := c, version := st.version }

/-- Whether a supplied commit message is absent or only whitespace. -/
def commit_message_missing : Option String → Bool
  | none => true
  | some s => s.toList.all fun ch => ch = ' ' || ch = '\t' || ch = '\n'

/-- Modelled from the spec (section 4.2 steps 5 to 8): persists the new
content under version `old + 1`, appends the immutable snapshot and the
commit log entry mirroring it plus current access-state flags, and
refreshes the derived summary synchronously.  The Commit and Snapshot
Manager is the sole writer of snapshots and commit log entries. -/
def commit_record (committer_id : String) (st : ExpStore)
    (new_content : ExpContent) (commit_cmds : List ChangeCmd)
    (commit_message : String) (commit_type : CommitType) : ExpStore :=
  let new_version := st.version + 1
  { st with
    model := some new_content
    version := new_version
    snapshots := st.snapshots ++
      [{ version_number := new_version
         content := new_content
         committer_id := committer_id
         commit_cmds := commit_cmds
         commit_message := commit_message
         commit_type := commit_type }]
    commit_log :=
      { exploration_id := st.exploration_id
        version := some new_version
        committer_id := committer_id
        commit_type := commit_type
        commit_message := commit_message
        post_commit_is_private := st.status = ExpStatus.private_ } ::
      st.commit_log
    summary := some
      { title := new_content.title
        category := new_content.category
        version := new_version
        status := st.status
        owner_ids := st.owner_ids } }

/-- Modelled from the spec (section 4.2): one logical save of an
in-memory document loaded at `supplied_version`.  Steps: load the
current document; apply the change list to a working copy; run full
structural validation; require a non-empty commit message when the
document is publicly visible; compare-and-swap on the stored version,
failing with a stale-version error naming both versions when they
differ; then persist version `old + 1` with its snapshot, commit log
entry and refreshed summary. -/
def save_exploration (committer_id : String) (st : ExpStore)
    (supplied_version : Nat) (change_list : List ChangeCmd)
    (commit_message : Option String) : Except CommitError ExpStore :=
  match get_exploration_by_id st with
  | Except.error e => Except.error e
  | Except.ok exploration =>
    match applyChangeList exploration.content change_list with
    | Except.error e => Except.error e
    | Except.ok new_content =>
      if !(validate new_content) then
        Except.error (CommitError.validation_error
          "Structural validation of the resulting document failed.")
      else if (!(st.status = ExpStatus.private_)) &&
          commit_message_missing commit_message then
        Except.error CommitError.commit_message_required
      else if !(supplied_version = st.version) then
        Except.error (CommitError.stale_version supplied_version st.version)
      else
        Except.ok (commit_record committer_id st new_content change_list
          (commit_message.getD "") CommitType.edit)

/-- Modelled from the spec: `update_exploration` loads the document
fresh and saves it, so the compare-and-swap always sees the live
version. -/
def update_exploration (committer_id : String) (st : ExpStore)
    (change_list : List ChangeCmd) (commit_message : Option String) :
    Except CommitError ExpStore :=
  save_exploration committer_id st st.version change_list commit_message

/-- The store a commit attempt leaves behind: the new store on success,
the unchanged input store on failure (an aborted commit persists no side
effect). -/
def apply_commit_result (st : ExpStore)
    (r : Except CommitError ExpStore) : ExpStore :=
  match r with
  | Except.ok next => next
  | Except.error _ => st

/-- Modelled from the spec (section 4.4): `revert_to_version` fails with
a stale-version error unless `current_version` equals the live version;
otherwise it commits a full copy of the target snapshot content with
commit type `revert`, an auto-generated message naming the target
version, and command list `[revert target]`. -/
def revert_exploration (committer_id : String) (st : ExpStore)
    (current_version revert_to_version : Nat) :
    Except CommitError ExpStore :=
  match get_exploration_by_id st with
  | Except.error e => Except.error e
  | Except.ok _ =>
    if !(current_version = st.version) then
      Except.error (CommitError.stale_version current_version st.version)
    else
      match st.snapshots.find?
          (fun s => s.version_number = revert_to_version) with
      | none => Except.error (CommitError.not_found
          ("No snapshot for version " ++ toString revert_to_version))
      | some snap =>
        Except.ok (commit_record committer_id st snap.content
          [ChangeCmd.revert_cmd revert_to_version]
          ("Reverted exploration to version " ++ toString revert_to_version)
          CommitType.revert)

/-- Modelled from the spec: publishing is a rights-only event — it flips
the access status, refreshes the summary status, and records a commit
log entry whose resulting version is `none` because the document version
is not bumped; it writes no snapshot. -/
def publish_exploration (committer_id : String) (st : ExpStore) : ExpStore :=
  { st with
    status := ExpStatus.public_
    summary := st.summary.map fun s => { s with status := ExpStatus.public_ }
    commit_log :=
      { exploration_id := st.exploration_id
        version := none
        committer_id := committer_id
        commit_type := CommitType.edit
        commit_message := "Exploration published."
        post_commit_is_private := false } ::
      st.commit_log }

/-- Modelled from the spec: publicizing is likewise a rights-only event
on an already public document. -/
def publicize_exploration (committer_id : String) (st : ExpStore) : ExpStore :=
  { st with
    status := ExpStatus.publicized_
    summary := st.summary.map fun s => { s with status := ExpStatus.publicized_ }
    commit_log :=
      { exploration_id := st.exploration_id
        version := none
        committer_id := committer_id
        commit_type := CommitType.edit
        commit_message := "Exploration publicized."
        post_commit_is_private := false } ::
      st.commit_log }

/-- Modelled from the spec: `delete_exploration` — the soft path marks
the document model deleted (so lookups and queries no longer return it)
and deletes the summary record, while the model itself and all its
version snapshots survive in the backend store; the hard path
(`force_deletion`) additionally purges the document model. -/
def delete_exploration (committer_id : String) (st : ExpStore)
    (force_deletion : Bool) : ExpStore :=
  let log_entry : CommitLogEntry :=
    { exploration_id := st.exploration_id
      version := some (st.version + 1)
      committer_id := committer_id
      commit_type := CommitType.delete
      commit_message := "Exploration deleted."
      post_commit_is_private := st.status = ExpStatus.private_ }
  if force_deletion then
    { st with
      model := none
      model_deleted := true
      summary := none
      commit_log := log_entry :: st.commit_log }
  else
    { st with
      model_deleted := true
      summary := none
      commit_log := log_entry :: st.commit_log }

/-- Whether the exploration model still exists in the backend store —
what `ExplorationModel.get_all(include_deleted_entities=True)` would
report for the id. -/
def exploration_model_exists_in_backend (st : ExpStore) : Bool :=
  st.model.isSome

/-- Modelled from the spec: the per-user summary query — returns the
live summary records of the documents the user can at least edit,
computed from summaries and the authorization role sets, never from full
documents.  A deleted summary is never returned. -/
def get_at_least_editable_exploration_summaries (st : ExpStore)
    (user_id : String) : List ExpSummary :=
  match st.summary with
  | none => []
  | some s => if s.owner_ids.contains user_id then [s] else []

/-- The initial state name used for a newly created document. -/
def init_state_default_name : String := "First state"

/-- The content of a freshly created document: one initial state whose
single handler has a default rule pointing back at itself. -/
def init_content (title category : String) : ExpContent :=
  { title := title
    category := category
    objective := ""
    init_state_name := init_state_default_name
    states := [(init_state_default_name,
      default_new_state init_state_default_name)] }

/-- Modelled from the spec: creating a document is an explicit `create`
commit producing version 1, with the `create_new` sentinel as its
command list, on a store whose access status starts private. -/
def create_exploration (committer_id exploration_id title category :
    String) : ExpStore :=
  commit_record committer_id
    { exploration_id := exploration_id
      model := none
      model_deleted := false
      version := 0
      snapshots := []
      commit_log := []
      summary := none
      status := ExpStatus.private_
      owner_ids := [committer_id]
      ratings := [] }
    (init_content title category)
    [ChangeCmd.create_new title category]
    ("New exploration created with title " ++ title ++ ".")
    CommitType.create

/-! ## Ratings and search rank (modelled from the spec) -/

/-- Modelled from the spec: `assign_rating` records one rating per
rater — a repeated rating by the same rater replaces the earlier one
rather than accumulating with it. -/
def upsert_rating (ratings : List (String × Nat)) (user_id : String)
    (rating : Nat) : List (String × Nat) :=
  match ratings with
  | [] => [(user_id, rating)]
  | (u, r) :: rest =>
    if u = user_id then (user_id, rating) :: rest
    else (u, r) :: upsert_rating rest user_id rating

/-- Records a rating for the document by one user. -/
def assign_rating (st : ExpStore) (user_id : String) (rating : Nat) :
    ExpStore :=
  { st with ratings := upsert_rating st.ratings user_id rating }

/-- The per-rating contribution to the search rank.  The 1-star, 2-star
and 5-star weights are fixed by the test suite (15 after a 1-star on a
fresh document, 58 after a 2-star on a publicized 5-star document, 60
after a 5-star). -/
def rating_weight : Nat → Int
  | 1 => -5
  | 2 => -2
  | 3 => 1
  | 4 => 3
  | 5 => 10
  | _ => 0

/-- Modelled from the spec (section 4.3): the search rank is a
deterministic pure function of the access status and the rating
aggregate — a baseline of 20 for existence, a bonus of 30 for
public/publicized status, plus the per-rating contributions, with the
final rank floored at zero. -/
def search_rank (status : ExpStatus) (ratings : List (String × Nat)) :
    Int :=
  let base : Int := 20
  let bonus : Int := if status = ExpStatus.private_ then 0 else 30
  max (base + bonus + (ratings.map fun p => rating_weight p.2).sum) 0

/-- Embeds `_get_search_rank` for a stored document: the pure rank of
its current status and rating aggregate. -/
def get_search_rank (st : ExpStore) : Int :=
  search_rank st.status st.ratings

/-! ## Concrete stores used to instantiate the theorems -/

/-- Extracts the success payload of an `Except`, with a fallback. -/
def except_get_or {ε α : Type} (r : Except ε α) (fallback : α) : α :=
  match r with
  | Except.ok a => a
  | Except.error _ => fallback

/-- A freshly created demonstration exploration (version 1). -/
def demo_store_1 : ExpStore :=
  create_exploration "owner" "eid" "A title" "A category"

/-- A one-command change list renaming the title. -/
def demo_change_list : List ChangeCmd :=
  [ChangeCmd.edit_exploration_property "title" "First title"]

/-- The demonstration store after one successful edit (version 2). -/
def demo_store_2 : ExpStore :=
  apply_commit_result demo_store_1
    (update_exploration "owner" demo_store_1 demo_change_list
      (some "Changed title."))

/-- A fallback snapshot used only to totalize lookups below. -/
def demo_fallback_snapshot : Snapshot :=
  { version_number := 0
    content := init_content "" ""
    committer_id := ""
    commit_cmds := []
    commit_message := ""
    commit_type := CommitType.create }

/-- The stored snapshot of version 1 of the demonstration store. -/
def demo_snapshot_1 : Snapshot :=
  (demo_store_2.snapshots.find? fun s => s.version_number = 1).getD
    demo_fallback_snapshot

/-- A fallback in-memory exploration used only to totalize lookups. -/
def demo_fallback_exploration : Exploration :=
  { content := init_content "" "", version := 0 }

/-- The demonstration exploration as loaded at version 2. -/
def demo_exploration_2 : Exploration :=
  except_get_or (get_exploration_by_id demo_store_2) demo_fallback_exploration

/-- The demonstration exploration as loaded at version 1. -/
def demo_exploration_1 : Exploration :=
  except_get_or (get_exploration_by_id demo_store_1) demo_fallback_exploration

/-- The demonstration store after publication (still version 1). -/
def demo_public_store : ExpStore :=
  publish_exploration "owner" demo_store_1

/-- The published demonstration exploration as loaded. -/
def demo_public_exploration : Exploration :=
  except_get_or (get_exploration_by_id demo_public_store)
    demo_fallback_exploration

/-- The demonstration content after applying the title change. -/
def demo_titled_content : ExpContent :=
  except_get_or
    (applyChangeList demo_exploration_1.content demo_change_list)
    (init_content "" "")

/-- A handler list whose first rule is a default rule that is not last —
the malformation the engine must reject. -/
def demo_bad_handlers : List (List RuleSpec) :=
  [[{ rule_type := RuleType.defaultRule, dest := init_state_default_name },
    { rule_type := RuleType.defaultRule, dest := init_state_default_name }]]

/-- A persistence layer whose `put` never raises. -/
def never_fails_put : AnswerLog → Bool := fun _ => false

/-! ## Lemmas about the statistics models -/

theorem splitAtFirstDot_join (xs ys : List Char) (h : '.' ∉ xs) :
    splitAtFirstDot (xs ++ '.' :: ys) = some (xs, ys) := by
  induction xs with
  | nil => simp [splitAtFirstDot]
  | cons c rest ih =>
    simp only [List.mem_cons, not_or] at h
    have hc : ¬(c = '.') := fun hh => h.1 hh.symm
    simp [splitAtFirstDot, hc, ih h.2]

theorem splitAtFirstDot_fst_no_dot :
    ∀ (l a b : List Char), splitAtFirstDot l = some (a, b) → '.' ∉ a := by
  intro l
  induction l with
  | nil => intro a b h; simp [splitAtFirstDot] at h
  | cons c rest ih =>
    intro a b h
    by_cases hc : c = '.'
    · simp [splitAtFirstDot, hc] at h
      rcases h with ⟨ha, _⟩
      subst ha
      simp
    · simp only [splitAtFirstDot, if_neg hc] at h
      cases hs : splitAtFirstDot rest with
      | none => rw [hs] at h; exact absurd h (by simp)
      | some p =>
        rw [hs] at h
        simp only [Option.some.injEq, Prod.mk.injEq] at h
        rcases h with ⟨ha, _⟩
        intro hmem
        rw [← ha] at hmem
        rcases List.mem_cons.mp hmem with h1 | h2
        · exact hc h1.symm
        · exact ih p.1 p.2 (by simp [hs]) h2

theorem splitAtFirstDot_some_of_mem :
    ∀ (l : List Char), '.' ∈ l → ∃ a b, splitAtFirstDot l = some (a, b) := by
  intro l
  induction l with
  | nil => intro h; simp at h
  | cons c rest ih =>
    intro h
    by_cases hc : c = '.'
    · exact ⟨[], rest, by simp [splitAtFirstDot, hc]⟩
    · have hmem : '.' ∈ rest := by
        rcases List.mem_cons.mp h with h1 | h2
        · exact absurd h1.symm hc
        · exact h2
      rcases ih hmem with ⟨a, b, hab⟩
      exact ⟨c :: a, b, by simp [splitAtFirstDot, hc, hab]⟩

theorem string_data_append (a b : String) : (a ++ b).data = a.data ++ b.data :=
  rfl

theorem instance_id_data (eid sn : String) :
    (state_counter_instance_id eid sn).data = eid.data ++ '.' :: sn.data := by
  show ((eid ++ ".") ++ sn).data = eid.data ++ '.' :: sn.data
  rw [string_data_append, string_data_append]
  simp

theorem answer_count_bump (log : AnswerLog) (a : String) :
    answer_count (bump_answer log a) a = answer_count log a + 1 := by
  induction log with
  | nil => simp [bump_answer, answer_count]
  | cons p rest ih =>
    rcases p with ⟨k, n⟩
    by_cases hk : k = a
    · simp [bump_answer, answer_count, hk]
    · simp [bump_answer, answer_count, hk, ih]

theorem get_or_create_put (store : StatsStore) (key : String)
    (log : AnswerLog) :
    get_or_create_answer_log (put_answer_log store key log) key = log := by
  induction store with
  | nil => simp [put_answer_log, get_or_create_answer_log]
  | cons p rest ih =>
    rcases p with ⟨k, l⟩
    by_cases hk : k = key
    · simp [put_answer_log, get_or_create_answer_log, hk]
    · simp [put_answer_log, get_or_create_answer_log, hk, ih]

/-! ## Claims C9 and C10 -/

/-- Claim C9: `process_submitted_answer` increments the submitted
answer count in the rule answer log by one (entries are created with
count 1 when absent, since the absent count is 0), and a persistence
failure while storing the updated log is swallowed: the call still
returns normally, leaving the store unchanged, while on persistence
success the updated log is stored under the rule key. -/
theorem process_submitted_answer_spec :
    (∀ (log : AnswerLog) (answer : String),
      answer_count (bump_answer log answer) answer
        = answer_count log answer + 1)
    ∧ (∀ (put_fails : AnswerLog → Bool) (store : StatsStore)
        (eid sn hn rule answer : String),
        (put_fails (bump_answer
            (get_or_create_answer_log store (answer_log_key eid sn hn rule))
            answer) = true →
          process_submitted_answer put_fails store eid sn hn rule answer
            = store)
        ∧ (put_fails (bump_answer
            (get_or_create_answer_log store (answer_log_key eid sn hn rule))
            answer) = false →
          get_or_create_answer_log
            (process_submitted_answer put_fails store eid sn hn rule answer)
            (answer_log_key eid sn hn rule)
          = bump_answer
              (get_or_create_answer_log store (answer_log_key eid sn hn rule))
              answer)) := by
  constructor
  · exact answer_count_bump
  · intro put_fails store eid sn hn rule answer
    constructor
    · intro h
      simp [process_submitted_answer, h]
    · intro h
      simp [process_submitted_answer, h, get_or_create_put]

/-- Witness for C9 at a concrete input: submitting the answer `"a"`
twice against an empty store with a never-failing persistence layer
yields the stored count 2. -/
theorem process_submitted_answer_spec_witness :
    get_or_create_answer_log
        (process_submitted_answer never_fails_put
          (process_submitted_answer never_fails_put [] "e" "s" "h" "r" "a")
          "e" "s" "h" "r" "a")
        (answer_log_key "e" "s" "h" "r")
      = bump_answer
          (get_or_create_answer_log
            (process_submitted_answer never_fails_put [] "e" "s" "h" "r" "a")
            (answer_log_key "e" "s" "h" "r"))
          "a" :=
  ((process_submitted_answer_spec.2 never_fails_put
    (process_submitted_answer never_fails_put [] "e" "s" "h" "r" "a")
    "e" "s" "h" "r" "a").2 (by decide))

/-- Claim C10: the `StateCounterModel` id encoding round-trips exactly
when the exploration id contains no dot — `get_exploration_id_and_state_name`
recovers the pair written by `get_or_create` for dot-free exploration
ids, and for an exploration id containing a dot the decoding splits at
the first dot, so the round-trip fails. -/
theorem state_counter_id_roundtrip (eid sn : String) :
    ('.' ∉ eid.data →
      get_exploration_id_and_state_name (state_counter_instance_id eid sn)
        = (eid, sn))
    ∧ ('.' ∈ eid.data →
      get_exploration_id_and_state_name (state_counter_instance_id eid sn)
        ≠ (eid, sn)) := by
  have hdata : (state_counter_instance_id eid sn).toList
      = eid.data ++ '.' :: sn.data := instance_id_data eid sn
  constructor
  · intro h
    rw [get_exploration_id_and_state_name, hdata,
      splitAtFirstDot_join eid.data sn.data h]
  · intro h heq
    rcases splitAtFirstDot_some_of_mem (eid.data ++ '.' :: sn.data)
        (List.mem_append.mpr (Or.inl h)) with ⟨a, b, hab⟩
    rw [get_exploration_id_and_state_name, hdata, hab] at heq
    have ha : a = eid.data := congrArg String.data (congrArg Prod.fst heq)
    exact splitAtFirstDot_fst_no_dot _ a b hab (ha ▸ h)

/-- Witness for C10 at concrete inputs: the id built from the dot-free
exploration id `"eid"` and state name `"New state"` decodes back to the
original pair. -/
theorem state_counter_id_roundtrip_witness :
    get_exploration_id_and_state_name
        (state_counter_instance_id "eid" "New state")
      = ("eid", "New state") :=
  (state_counter_id_roundtrip "eid" "New state").1 (by decide)

/-! ## Lemmas about the engine -/

theorem upsert_upsert (ratings : List (String × Nat)) (u : String)
    (r1 r2 : Nat) :
    upsert_rating (upsert_rating ratings u r1) u r2
      = upsert_rating ratings u r2 := by
  induction ratings with
  | nil => simp [upsert_rating]
  | cons p rest ih =>
    rcases p with ⟨k, v⟩
    by_cases hk : k = u
    · simp [upsert_rating, hk]
    · simp [upsert_rating, hk, ih]

/-! ## Claims C4, C7 and C8 -/

/-- Claim C4: the search rank is a pure function of status and rating
aggregate — a fresh unrated document has rank 20; after publish plus
publicize the rank is 50; one additional 5-star rating makes it 60;
repeated ratings by the same rater replace the earlier rating; and the
rank never goes below 0 for any rating aggregate. -/
theorem search_rank_spec :
    (∀ (cid eid t cat : String),
      get_search_rank (create_exploration cid eid t cat) = 20)
    ∧ (∀ (cid eid t cat p1 p2 : String),
      get_search_rank (publicize_exploration p2
        (publish_exploration p1 (create_exploration cid eid t cat))) = 50)
    ∧ (∀ (cid eid t cat p1 p2 u : String),
      get_search_rank (assign_rating (publicize_exploration p2
        (publish_exploration p1 (create_exploration cid eid t cat))) u 5)
        = 60)
    ∧ (∀ (st : ExpStore) (u : String) (r1 r2 : Nat),
      assign_rating (assign_rating st u r1) u r2 = assign_rating st u r2)
    ∧ (∀ (status : ExpStatus) (ratings : List (String × Nat)),
      0 ≤ search_rank status ratings) := by
  refine ⟨?_, ?_, ?_, ?_, ?_⟩
  · intro cid eid t cat
    simp [get_search_rank, create_exploration, commit_record, search_rank]
  · intro cid eid t cat p1 p2
    simp [get_search_rank, create_exploration, commit_record, search_rank,
      publish_exploration, publicize_exploration]
  · intro cid eid t cat p1 p2 u
    simp [get_search_rank, create_exploration, commit_record, search_rank,
      publish_exploration, publicize_exploration, assign_rating,
      upsert_rating, rating_weight]
  · intro st u r1 r2
    simp [assign_rating, upsert_upsert]
  · intro status ratings
    exact le_max_right _ 0

/-- Claim C7: rights-only events such as publication do not advance the
document version and add no snapshot; their commit log entry carries a
`none` version, while every ordinary commit appends a log entry carrying
the resulting version (the old version plus one). -/
theorem rights_only_events_frame :
    (∀ (cid : String) (st : ExpStore),
      (publish_exploration cid st).version = st.version
      ∧ (publish_exploration cid st).snapshots = st.snapshots
      ∧ ∃ en, (publish_exploration cid st).commit_log = en :: st.commit_log
          ∧ en.version = none)
    ∧ (∀ (cid : String) (st : ExpStore) (nc : ExpContent)
        (cmds : List ChangeCmd) (msg : String) (t : CommitType),
      ∃ en, (commit_record cid st nc cmds msg t).commit_log
          = en :: st.commit_log
        ∧ en.version = some ((commit_record cid st nc cmds msg t).version)
        ∧ (commit_record cid st nc cmds msg t).version = st.version + 1) := by
  constructor
  · intro cid st
    exact ⟨rfl, rfl, ⟨_, rfl, rfl⟩⟩
  · intro cid st nc cmds msg t
    exact ⟨_, rfl, rfl, rfl⟩

/-- Claim C8: soft deletion deletes the summary record and makes
get-by-id and the per-user summary query come back empty, while the
document model and its snapshots survive in the backend store; only
hard deletion (`force_deletion`) purges the document model itself. -/
theorem soft_vs_hard_deletion :
    ∀ (cid : String) (st : ExpStore) (user_id : String),
      (delete_exploration cid st false).summary = none
      ∧ (∃ m, get_exploration_by_id (delete_exploration cid st false)
          = Except.error (CommitError.not_found m))
      ∧ get_at_least_editable_exploration_summaries
          (delete_exploration cid st false) user_id = []
      ∧ (delete_exploration cid st false).model = st.model
      ∧ (delete_exploration cid st false).snapshots = st.snapshots
      ∧ (delete_exploration cid st true).model = none
      ∧ (delete_exploration cid st true).summary = none := by
  intro cid st user_id
  refine ⟨rfl, ?_, rfl, rfl, rfl, rfl, rfl⟩
  refine ⟨"Entity for exploration " ++ st.exploration_id ++ " not found", ?_⟩
  cases hm : st.model with
  | none => simp [get_exploration_by_id, delete_exploration, hm]
  | some c => simp [get_exploration_by_id, delete_exploration, hm]

theorem get_exploration_ok_elim (st : ExpStore) (e : Exploration)
    (h : get_exploration_by_id st = Except.ok e) :
    st.model = some e.content ∧ st.model_deleted = false
      ∧ e.version = st.version := by
  unfold get_exploration_by_id at h
  cases hm : st.model with
  | none => rw [hm] at h; exact absurd h (by simp)
  | some c =>
    rw [hm] at h
    by_cases hd : st.model_deleted
    · simp [hd] at h
    · simp only [hd, if_false, Bool.false_eq_true, if_neg] at h
      have := Except.ok.inj h
      exact ⟨by rw [← this], by simp [hd], by rw [← this]⟩

theorem get_commit_record (cid : String) (st : ExpStore) (nc : ExpContent)
    (cmds : List ChangeCmd) (msg : String) (t : CommitType)
    (hdel : st.model_deleted = false) :
    get_exploration_by_id (commit_record cid st nc cmds msg t)
      = Except.ok { content := nc, version := st.version + 1 } := by
  simp [get_exploration_by_id, commit_record, hdel]

theorem save_exploration_ok_elim (cid : String) (st : ExpStore)
    (v : Nat) (cl : List ChangeCmd) (msg : Option String) (st2 : ExpStore)
    (h : save_exploration cid st v cl msg = Except.ok st2) :
    ∃ e nc, get_exploration_by_id st = Except.ok e
      ∧ applyChangeList e.content cl = Except.ok nc
      ∧ validate nc = true
      ∧ v = st.version
      ∧ st2 = commit_record cid st nc cl (msg.getD "") CommitType.edit := by
  unfold save_exploration at h
  split at h
  · exact absurd h (by simp)
  · rename_i e hg
    split at h
    · exact absurd h (by simp)
    · rename_i nc ha
      split at h
      · exact absurd h (by simp)
      · rename_i hv
        split at h
        · exact absurd h (by simp)
        · split at h
          · exact absurd h (by simp)
          · rename_i hcas
            refine ⟨e, nc, hg, ha, ?_, ?_, (Except.ok.inj h).symm⟩
            · simpa using hv
            · simpa using hcas

theorem save_exploration_ok_intro (cid : String) (st : ExpStore)
    (cl : List ChangeCmd) (msg : Option String) (e : Exploration)
    (nc : ExpContent)
    (hg : get_exploration_by_id st = Except.ok e)
    (ha : applyChangeList e.content cl = Except.ok nc)
    (hv : validate nc = true)
    (hm : st.status = ExpStatus.private_ ∨ commit_message_missing msg = false) :
    save_exploration cid st st.version cl msg
      = Except.ok (commit_record cid st nc cl (msg.getD "")
          CommitType.edit) := by
  have hmsg : ((!decide (st.status = ExpStatus.private_))
      && commit_message_missing msg) = false := by
    rcases hm with h1 | h2
    · simp [h1]
    · simp [h2]
  simp [save_exploration, hg, ha, hv, hmsg]

theorem applyChangeList_append (c : ExpContent) (l1 l2 : List ChangeCmd) :
    applyChangeList c (l1 ++ l2)
      = match applyChangeList c l1 with
        | Except.error e => Except.error e
        | Except.ok mid => applyChangeList mid l2 := by
  induction l1 generalizing c with
  | nil => simp [applyChangeList]
  | cons cmd rest ih =>
    simp only [List.cons_append, applyChangeList]
    cases applyCmd c cmd with
    | error e => simp
    | ok next => simp [ih next]

theorem misplaced_default_not_all_valid (hs : List (List RuleSpec))
    (h : has_misplaced_default hs = true) :
    hs.all valid_ruleset = false := by
  unfold has_misplaced_default at h
  rcases List.any_eq_true.mp h with ⟨rules, hmem, hbad⟩
  rcases List.any_eq_true.mp hbad with ⟨r, hr_mem, hr⟩
  by_contra hall
  have hall2 := List.all_eq_true.mp (Bool.not_eq_false _ |>.mp hall)
  have hvalid := hall2 rules hmem
  unfold valid_ruleset at hvalid
  have h2 := (Bool.and_eq_true _ _ |>.mp hvalid).2
  have h3 := List.all_eq_true.mp h2 r hr_mem
  simp only [decide_eq_true_eq] at hr
  simp [hr] at h3

/-! ## Claims C1, C2, C3, C5 and C6 -/

/-- Claim C1: every successful save of a non-empty change list — via
`update_exploration` or the lower-level save — leaves the store such
that reloading the document by id yields a version exactly one greater
than the version before the call. -/
theorem version_bump_on_save :
    (∀ (cid : String) (st : ExpStore) (v : Nat) (cl : List ChangeCmd)
        (msg : Option String) (st2 : ExpStore),
      cl ≠ [] →
      save_exploration cid st v cl msg = Except.ok st2 →
      ∃ e, get_exploration_by_id st2 = Except.ok e
        ∧ e.version = st.version + 1)
    ∧ (∀ (cid : String) (st : ExpStore) (cl : List ChangeCmd)
        (msg : Option String) (st2 : ExpStore),
      cl ≠ [] →
      update_exploration cid st cl msg = Except.ok st2 →
      ∃ e, get_exploration_by_id st2 = Except.ok e
        ∧ e.version = st.version + 1) := by
  have main : ∀ (cid : String) (st : ExpStore) (v : Nat)
      (cl : List ChangeCmd) (msg : Option String) (st2 : ExpStore),
      save_exploration cid st v cl msg = Except.ok st2 →
      ∃ e, get_exploration_by_id st2 = Except.ok e
        ∧ e.version = st.version + 1 := by
    intro cid st v cl msg st2 h
    rcases save_exploration_ok_elim cid st v cl msg st2 h with
      ⟨e, nc, hg, _, _, _, hst2⟩
    rcases get_exploration_ok_elim st e hg with ⟨_, hdel, _⟩
    refine ⟨{ content := nc, version := st.version + 1 }, ?_, rfl⟩
    rw [hst2]
    exact get_commit_record cid st nc cl (msg.getD "") CommitType.edit hdel
  exact ⟨fun cid st v cl msg st2 _ h => main cid st v cl msg st2 h,
    fun cid st cl msg st2 _ h => main cid st st.version cl msg st2 h⟩

/-- Witness for C1 at a concrete input: updating the fresh demonstration
store with the one-command title change yields a store that reloads at
version 2. -/
theorem version_bump_on_save_witness :
    ∃ e, get_exploration_by_id demo_store_2 = Except.ok e
      ∧ e.version = demo_store_1.version + 1 :=
  version_bump_on_save.2 "owner" demo_store_1 demo_change_list
    (some "Changed title.") demo_store_2 (by decide) (by rfl)

theorem string_append_assoc (a b c : String) :
    a ++ b ++ c = a ++ (b ++ c) := by
  cases a with | mk da =>
  cases b with | mk db =>
  cases c with | mk dc =>
  show String.mk ((da ++ db) ++ dc) = String.mk (da ++ (db ++ dc))
  rw [List.append_assoc]

/-- Claim C2: a commit attempted with a supplied version different from
the current persisted version fails with a stale-version error, both for
an ordinary save from a stale in-memory document (given the same commit
would succeed with the live version) and for `revert_exploration` with a
`current_version` argument different from the live version; the error
message names the offending version (the phrase `version N, which is too
old`, with N the stale supplied version), and the failed attempt leaves
the store — in particular its version — unchanged. -/
theorem stale_version_commit_fails :
    (∀ (cid cid2 : String) (st : ExpStore) (cl : List ChangeCmd)
        (msg : Option String) (st2 : ExpStore) (supplied : Nat),
      update_exploration cid st cl msg = Except.ok st2 →
      supplied ≠ st.version →
      save_exploration cid2 st supplied cl msg
        = Except.error (CommitError.stale_version supplied st.version)
      ∧ apply_commit_result st (save_exploration cid2 st supplied cl msg)
        = st)
    ∧ (∀ (cid : String) (st : ExpStore) (e : Exploration)
        (current rv : Nat),
      get_exploration_by_id st = Except.ok e →
      current ≠ st.version →
      revert_exploration cid st current rv
        = Except.error (CommitError.stale_version current st.version)
      ∧ apply_commit_result st (revert_exploration cid st current rv) = st)
    ∧ (∀ (supplied current : Nat), ∃ rest,
      error_message (CommitError.stale_version supplied current)
        = "version " ++ toString supplied ++ (", which is too old" ++ rest)) := by
  refine ⟨?_, ?_, ?_⟩
  · intro cid cid2 st cl msg st2 supplied hok hne
    rcases save_exploration_ok_elim cid st st.version cl msg st2 hok with
      ⟨e, nc, hg, ha, hv, _, _⟩
    have hmsg : ((!decide (st.status = ExpStatus.private_))
        && commit_message_missing msg) = false := by
      by_contra hb
      have hb2 := Bool.not_eq_false _ |>.mp hb
      have hbad : update_exploration cid st cl msg
          = Except.error CommitError.commit_message_required := by
        simp [update_exploration, save_exploration, hg, ha, hv, hb2]
      rw [hok] at hbad
      exact absurd hbad (by simp)
    have herr : save_exploration cid2 st supplied cl msg
        = Except.error (CommitError.stale_version supplied st.version) := by
      simp [save_exploration, hg, ha, hv, hmsg, hne]
    exact ⟨herr, by rw [herr]; rfl⟩
  · intro cid st e current rv hg hne
    have herr : revert_exploration cid st current rv
        = Except.error (CommitError.stale_version current st.version) := by
      simp [revert_exploration, hg, hne]
    exact ⟨herr, by rw [herr]; rfl⟩
  · intro supplied current
    refine ⟨". The current version of the exploration is "
      ++ toString current ++ ".", ?_⟩
    simp only [error_message, string_append_assoc]

/-- Witness for C2 at concrete inputs: saving the demonstration store
from stale version 0, and reverting it with a wrong current version,
both fail with the stale-version error and leave the store unchanged. -/
theorem stale_version_commit_fails_witness :
    (save_exploration "other" demo_store_1 0 demo_change_list
        (some "Changed title.")
      = Except.error (CommitError.stale_version 0 demo_store_1.version)
    ∧ apply_commit_result demo_store_1
        (save_exploration "other" demo_store_1 0 demo_change_list
          (some "Changed title."))
      = demo_store_1)
    ∧ (revert_exploration "other" demo_store_1 0 1
      = Except.error (CommitError.stale_version 0 demo_store_1.version)
    ∧ apply_commit_result demo_store_1
        (revert_exploration "other" demo_store_1 0 1)
      = demo_store_1) :=
  ⟨stale_version_commit_fails.1 "owner" "other" demo_store_1
      demo_change_list (some "Changed title.") demo_store_2 0
      (by rfl) (by decide),
    stale_version_commit_fails.2.1 "other" demo_store_1
      demo_exploration_1 0 1 (by rfl) (by decide)⟩

/-- Claim C3: reverting a live document at version N to an existing
earlier version V succeeds and produces version N+1 whose content
equals the stored snapshot content of version V, recorded with commit
type `revert` and the auto-generated message naming the target
version. -/
theorem revert_produces_new_version :
    ∀ (cid : String) (st : ExpStore) (e : Exploration) (snap : Snapshot)
      (rv : Nat),
      get_exploration_by_id st = Except.ok e →
      st.snapshots.find? (fun s => s.version_number = rv) = some snap →
      rv < st.version →
      ∃ st2, revert_exploration cid st st.version rv = Except.ok st2
        ∧ st2.version = st.version + 1
        ∧ st2.model = some snap.content
        ∧ get_exploration_by_id st2
            = Except.ok { content := snap.content, version := st.version + 1 }
        ∧ st2.snapshots = st.snapshots ++
            [{ version_number := st.version + 1
               content := snap.content
               committer_id := cid
               commit_cmds := [ChangeCmd.revert_cmd rv]
               commit_message :=
                 "Reverted exploration to version " ++ toString rv
               commit_type := CommitType.revert }] := by
  intro cid st e snap rv hg hfind _
  rcases get_exploration_ok_elim st e hg with ⟨_, hdel, _⟩
  have hrev : revert_exploration cid st st.version rv
      = Except.ok (commit_record cid st snap.content
          [ChangeCmd.revert_cmd rv]
          ("Reverted exploration to version " ++ toString rv)
          CommitType.revert) := by
    simp [revert_exploration, hg, hfind]
  refine ⟨_, hrev, rfl, rfl, ?_, rfl⟩
  exact get_commit_record cid st snap.content _ _ _ hdel

/-- Witness for C3 at a concrete input: reverting the demonstration
store from version 2 to version 1 yields version 3 carrying the stored
content of version 1 with a `revert` snapshot. -/
theorem revert_produces_new_version_witness :
    ∃ st2, revert_exploration "reverter" demo_store_2 demo_store_2.version 1
        = Except.ok st2
      ∧ st2.version = demo_store_2.version + 1
      ∧ st2.model = some demo_snapshot_1.content
      ∧ get_exploration_by_id st2
          = Except.ok { content := demo_snapshot_1.content
                        version := demo_store_2.version + 1 }
      ∧ st2.snapshots = demo_store_2.snapshots ++
          [{ version_number := demo_store_2.version + 1
             content := demo_snapshot_1.content
             committer_id := "reverter"
             commit_cmds := [ChangeCmd.revert_cmd 1]
             commit_message := "Reverted exploration to version " ++ toString 1
             commit_type := CommitType.revert }] :=
  revert_produces_new_version "reverter" demo_store_2 demo_exploration_2
    demo_snapshot_1 1 (by rfl) (by rfl) (by decide)

/-- Claim C5: for an otherwise valid commit, a publicly visible
document rejects an absent or whitespace-only commit message with the
commit-message-required error, while a private (unpublished) document
accepts any commit message — in particular an absent (`none`) or
empty-string one — and the commit succeeds. -/
theorem commit_message_policy :
    ∀ (cid : String) (st : ExpStore) (cl : List ChangeCmd)
      (msg : Option String) (e : Exploration) (nc : ExpContent),
      get_exploration_by_id st = Except.ok e →
      applyChangeList e.content cl = Except.ok nc →
      validate nc = true →
      ((¬ st.status = ExpStatus.private_ →
        commit_message_missing msg = true →
        update_exploration cid st cl msg
          = Except.error CommitError.commit_message_required)
      ∧ (st.status = ExpStatus.private_ →
        ∃ st2, update_exploration cid st cl msg = Except.ok st2)) := by
  intro cid st cl msg e nc hg ha hv
  constructor
  · intro hpub hmiss
    simp [update_exploration, save_exploration, hg, ha, hv, hpub, hmiss]
  · intro hpriv
    exact ⟨_, save_exploration_ok_intro cid st cl msg e nc hg ha hv
      (Or.inl hpriv)⟩

/-- Witness for C5 at concrete inputs: the published demonstration
store rejects an absent commit message, while the private one accepts
it. -/
theorem commit_message_policy_witness :
    update_exploration "owner" demo_public_store demo_change_list none
      = Except.error CommitError.commit_message_required
    ∧ ∃ st2, update_exploration "owner" demo_store_1 demo_change_list none
      = Except.ok st2 :=
  ⟨(commit_message_policy "owner" demo_public_store demo_change_list none
      demo_public_exploration demo_titled_content rfl rfl (by decide)).1
      (by decide) (by decide),
    (commit_message_policy "owner" demo_store_1 demo_change_list none
      demo_exploration_1 demo_titled_content rfl rfl (by decide)).2
      (by decide)⟩

/-- Claim C6: a change list that sets a state interaction handler list
containing a default rule in a non-last position is rejected by
`update_exploration` with a validation error, and the store — its
version and content included — is left unchanged. -/
theorem misplaced_default_rule_rejected :
    ∀ (cid : String) (st : ExpStore) (cl_pre cl_post : List ChangeCmd)
      (sname : String) (hs : List (List RuleSpec)) (msg : Option String)
      (e : Exploration) (c1 : ExpContent),
      get_exploration_by_id st = Except.ok e →
      applyChangeList e.content cl_pre = Except.ok c1 →
      has_misplaced_default hs = true →
      ∃ m, update_exploration cid st
          (cl_pre ++ ChangeCmd.edit_state_property sname
            (StateProp.handlersProp hs) :: cl_post) msg
        = Except.error (CommitError.validation_error m)
        ∧ apply_commit_result st (update_exploration cid st
            (cl_pre ++ ChangeCmd.edit_state_property sname
              (StateProp.handlersProp hs) :: cl_post) msg)
          = st := by
  intro cid st cl_pre cl_post sname hs msg e c1 hg hpre hbad
  have hall := misplaced_default_not_all_valid hs hbad
  have hcmd : ∃ m, applyCmd c1 (ChangeCmd.edit_state_property sname
      (StateProp.handlersProp hs))
      = Except.error (CommitError.validation_error m) := by
    cases hl : lookup_state c1.states sname with
    | none =>
      exact ⟨"State " ++ sname ++ " does not exist",
        by simp [applyCmd, hl]⟩
    | some s =>
      refine ⟨"Invalid ruleset: rules other than the last one should not" ++
        " be default rules, and the last rule should be a default rule.", ?_⟩
      simp [applyCmd, hl, hall]
  rcases hcmd with ⟨m, hcmd⟩
  have happly : applyChangeList e.content
      (cl_pre ++ ChangeCmd.edit_state_property sname
        (StateProp.handlersProp hs) :: cl_post)
      = Except.error (CommitError.validation_error m) := by
    rw [applyChangeList_append, hpre]
    show applyChangeList c1 (ChangeCmd.edit_state_property sname
      (StateProp.handlersProp hs) :: cl_post) = _
    simp [applyChangeList, hcmd]
  have herr : update_exploration cid st
      (cl_pre ++ ChangeCmd.edit_state_property sname
        (StateProp.handlersProp hs) :: cl_post) msg
      = Except.error (CommitError.validation_error m) := by
    simp [update_exploration, save_exploration, hg, happly]
  exact ⟨m, herr, by rw [herr]; rfl⟩

/-- Witness for C6 at a concrete input: setting the initial state
handlers of the fresh demonstration store to a two-default-rule handler
list is rejected with a validation error and changes nothing. -/
theorem misplaced_default_rule_rejected_witness :
    ∃ m, update_exploration "owner" demo_store_1
        ([] ++ ChangeCmd.edit_state_property init_state_default_name
          (StateProp.handlersProp demo_bad_handlers) :: []) none
      = Except.error (CommitError.validation_error m)
      ∧ apply_commit_result demo_store_1 (update_exploration "owner"
          demo_store_1
          ([] ++ ChangeCmd.edit_state_property init_state_default_name
            (StateProp.handlersProp demo_bad_handlers) :: []) none)
        = demo_store_1 :=
  misplaced_default_rule_rejected "owner" demo_store_1 [] []
    init_state_default_name demo_bad_handlers none demo_exploration_1
    demo_exploration_1.content (by rfl) (by rfl) (by decide)

end Oppia
